import Mathlib

/-!
Verification of the Falabella scraper (`scraper.py`) against its
natural-language specification.

The development shallowly embeds the program:

* The rendered page is a list of candidate container elements (`Card`),
  each carrying the CSS selectors it matches, the list of its descendant
  elements in document order (`children`), and a flag `throws` modelling a
  DOM element whose property access raises inside the per-card `try` block
  of the extraction script (the script wraps each card in `try/catch` and
  skips the `items.push` when an error is raised).
* `document.querySelector('a, b, c')` on a container returns the first
  element in document order matching ANY of the comma-separated selectors;
  `querySelector` below embeds exactly that.
* JavaScript truthiness of the `||` fallback chains is embedded by
  `jsTruthy` / `jsOr` / `jsOrNull` / `jsOrDefault`: `null`/`undefined` and
  the empty string are falsy.
* The browser lifecycle is embedded as an event trace: the
  `with sync_playwright()` block guarantees (by Python `with` semantics)
  that the context manager exit runs on every path, normal or exceptional,
  and Playwright's exit terminates every browser launched through it; the
  trace records this as a final `stop` event on every path, while
  `browser.close()` appears only where the source calls it.
* Wall-clock timestamps are passed in as an opaque string `now`; log lines
  are modelled without the timestamp prefix added by `log()`.
-/

/-- An element of the rendered DOM inside a product container: the CSS
selectors it matches, its text content, and the attributes the extraction
script reads. `src` and `href` are the reflected DOM properties, which are
the empty string when the attribute is absent; `dataSrc` is
`getAttribute('data-src')`, which is null (`none`) when absent. -/
structure Element where
  sel : List String
  textContent : String
  src : String := ""
  dataSrc : Option String := none
  href : String := ""
deriving DecidableEq

/-- A candidate product container: the selectors the container element
matches, its descendant elements in document order, and whether touching
this card raises inside the extraction script's per-card `try` block. -/
structure Card where
  sel : List String
  children : List Element
  throws : Bool := false
deriving DecidableEq

/-- One extracted product record, mirroring the object pushed onto `items`
by the extraction script. -/
structure ProductRecord where
  id : Nat
  name : String
  price : String
  originalPrice : Option String
  discount : Option String
  image : Option String
  link : Option String
  rating : Option String
deriving DecidableEq

/-- JavaScript truthiness of a string-or-null value: `null`/`undefined`
(`none`) and the empty string are falsy. -/
def jsTruthy : Option String → Bool
  | some s => s ≠ ""
  | none => false

/-- JavaScript `a || b` on string-or-null values. -/
def jsOr (a b : Option String) : Option String :=
  if jsTruthy a then a else b

/-- JavaScript `a || null` on a string-or-null value. -/
def jsOrNull (a : Option String) : Option String :=
  if jsTruthy a then a else none

/-- JavaScript `a || 'd'` where the result is consumed as a string:
a falsy `a` (null or empty) yields the default `d`. -/
def jsOrDefault (a : Option String) (d : String) : String :=
  match a with
  | some s => if s = "" then d else s
  | none => d

/-- Is the character trimmed by JavaScript `String.prototype.trim`? The
embedding covers the ASCII whitespace subset, which is all the source's
inputs exercise. -/
def isJsWhitespace (ch : Char) : Bool :=
  ch = ' ' || ch = '\t' || ch = '\n' || ch = '\r'

/-- JavaScript `s.trim()`: drop leading and trailing whitespace. -/
def jsTrim (s : String) : String :=
  String.mk (((s.data.dropWhile isJsWhitespace).reverse.dropWhile isJsWhitespace).reverse)

/-- Does the element match any selector of the comma-separated list?
This is the matching test of `querySelector('s1, s2, ...')`. -/
def matchesAny (selList : List String) (e : Element) : Bool :=
  selList.any (fun s => e.sel.contains s)

/-- `card.querySelector('s1, s2, ...')`: the first element in document
order that matches any selector of the list, or null. -/
def querySelector (selList : List String) (elems : List Element) : Option Element :=
  elems.find? (matchesAny selList)

/-- The candidate container selectors of the extraction script, in source
order. -/
def containerSelectors : List String :=
  [".product-item", ".search-results-item", ".product-card",
   "[data-testid=\"product-card\"]"]

/-- The selector list of the bounded `page.wait_for_selector` call. -/
def waitSelectors : List String :=
  [".product-item", ".search-results-item", ".product-card"]

/-- Sub-selector list for the `name` field. -/
def nameSelectors : List String :=
  [".product-name", ".search-results-4-grid__information__name", "h3", ".title"]

/-- Sub-selector list for the `price` field. -/
def priceSelectors : List String :=
  [".price", ".search-results-4-grid__pod-price", ".price-value", "[data-price]"]

/-- Sub-selector list for the `originalPrice` field. -/
def originalPriceSelectors : List String :=
  [".original-price", ".list-price", ".price-old"]

/-- Sub-selector list for the `discount` field. -/
def discountSelectors : List String :=
  [".discount", ".discount-percentage", ".badge-discount"]

/-- Sub-selector list for the `image` field. -/
def imageSelectors : List String := ["img"]

/-- Sub-selector list for the `link` field. -/
def linkSelectors : List String := ["a"]

/-- Sub-selector list for the `rating` field. -/
def ratingSelectors : List String :=
  [".rating", ".stars", ".review-rating"]

/-- The body of the per-card extraction: probe each field with one
comma-joined `querySelector` over the card's children and build the record
with the source's `||` fallback chains; `index` is the 0-based position of
the card among ALL matched containers (the `forEach` index). -/
def extractCard (card : Card) (index : Nat) : ProductRecord :=
  let nameEl := querySelector nameSelectors card.children
  let priceEl := querySelector priceSelectors card.children
  let originalPriceEl := querySelector originalPriceSelectors card.children
  let discountEl := querySelector discountSelectors card.children
  let imageEl := querySelector imageSelectors card.children
  let linkEl := querySelector linkSelectors card.children
  let ratingEl := querySelector ratingSelectors card.children
  { id := index + 1
    name := jsOrDefault (nameEl.map (fun e => jsTrim e.textContent)) "N/A"
    price := jsOrDefault (priceEl.map (fun e => jsTrim e.textContent)) "N/A"
    originalPrice := jsOrNull (originalPriceEl.map (fun e => jsTrim e.textContent))
    discount := jsOrNull (discountEl.map (fun e => jsTrim e.textContent))
    image := jsOrNull (jsOr (imageEl.map (fun e => e.src)) (imageEl.bind (fun e => e.dataSrc)))
    link := jsOrNull (linkEl.map (fun e => e.href))
    rating := jsOrNull (ratingEl.map (fun e => jsTrim e.textContent)) }

/-- The `productElements.forEach((card, index) => \x7b try ... catch ... \x7d)`
loop: `idx` is the forEach index of the head card; a throwing card is
skipped (its `items.push` never runs) but the index still advances. -/
def extractLoop : List Card → Nat → List ProductRecord
  | [], _ => []
  | c :: rest, idx =>
    if c.throws then extractLoop rest (idx + 1)
    else extractCard c idx :: extractLoop rest (idx + 1)

/-- The whole extraction pass over the matched containers, starting at
forEach index 0. -/
def extractProducts (cards : List Card) : List ProductRecord :=
  extractLoop cards 0

/-- The container-selection loop of the extraction script: try each
candidate selector in order, use the first one with at least one match for
the entire extraction; if none matches, the element list stays empty. -/
def selectContainers (page : List Card) : List Card :=
  match containerSelectors.find? (fun s => page.any (fun c => c.sel.contains s)) with
  | some s => page.filter (fun c => c.sel.contains s)
  | none => []

/-- Does `page.wait_for_selector('.product-item, .search-results-item,
.product-card', ...)` find a match on the rendered page? On the static
page model the bounded wait collapses to existence of a matching element;
`false` means the wait times out and raises. -/
def waitFindsContainer (page : List Card) : Bool :=
  page.any (fun c => waitSelectors.any (fun s => c.sel.contains s))

/-- Browser-lifecycle events of one extraction run: `launch` is
`p.chromium.launch(...)`, `close` is the explicit `browser.close()` of the
success path, and `stop` is the `with sync_playwright()` context-manager
exit, which terminates every browser launched through it and runs on every
path, normal or exceptional. -/
inductive Ev where
  | launch
  | close
  | stop
deriving DecidableEq

/-- Is a browser process still live after the given event trace? `launch`
brings one up; `close` and `stop` both bring it down. -/
def browserLive (t : List Ev) : Bool :=
  t.foldl
    (fun _ e =>
      match e with
      | Ev.launch => true
      | Ev.close => false
      | Ev.stop => false)
    false

/-- The environment one run of `scrape_falabella` executes against:
whether `p.chromium.launch` succeeds, whether `page.goto` reaches network
idle before its timeout, whether the `page.evaluate` calls (scroll and
extraction) run without raising, and the rendered page itself. -/
structure World where
  launchOk : Bool
  gotoOk : Bool
  evalOk : Bool
  page : List Card
deriving DecidableEq

/-- The body of the `with sync_playwright() as p:` block of
`scrape_falabella`: launch, goto with `networkidle`, the bounded
`wait_for_selector`, scroll, and the extraction `page.evaluate`; the
success path calls `browser.close()` before returning. Each failure raises
out of the block (the trace stops where the exception is raised). -/
def scrapeWithPlaywright (w : World) : Except String (List ProductRecord) × List Ev :=
  if w.launchOk = false then
    (Except.error "launch failed", [])
  else if w.gotoOk = false then
    (Except.error "navigation timeout", [Ev.launch])
  else if waitFindsContainer w.page = false then
    (Except.error "selector wait timeout", [Ev.launch])
  else if w.evalOk = false then
    (Except.error "evaluation failed", [Ev.launch])
  else
    (Except.ok (extractProducts (selectContainers w.page)), [Ev.launch, Ev.close])

/-- `scrape_falabella`: run the `with sync_playwright()` block; the
context-manager exit appends `stop` on every path (Python runs it on
normal exit and on exceptions alike); the surrounding `except` clause logs
and re-raises the same exception, so the result passes through. -/
def scrape_falabella (w : World) : Except String (List ProductRecord) × List Ev :=
  match scrapeWithPlaywright w with
  | (r, t) => (r, t ++ [Ev.stop])

/-- Auxiliary `metadata` object of the delivery payload. -/
structure Metadata where
  scraper_version : String
  execution_time : String
deriving DecidableEq

/-- The JSON envelope `send_to_n8n` posts to the webhook. -/
structure Payload where
  timestamp : String
  source : String
  category : String
  total_products : Nat
  products : List ProductRecord
  metadata : Metadata
deriving DecidableEq

/-- The `payload = \x7b ... \x7d` construction of `send_to_n8n`: the
timestamps are `datetime.now().isoformat()`, passed in as `now`. -/
def mkPayload (products : List ProductRecord) (now : String) : Payload :=
  { timestamp := now
    source := "falabella"
    category := "zapatillas-zapatos-hombre"
    total_products := products.length
    products := products
    metadata := { scraper_version := "1.0", execution_time := now } }

/-- What the network does to the single POST of `send_to_n8n`: an HTTP
response with a status code and a body, a `requests.exceptions.Timeout`,
or any other transport-level exception with its description. -/
inductive HttpOutcome where
  | response (status : Nat) (body : String)
  | timeout
  | transportFault (desc : String)
deriving DecidableEq

/-- Log line of the HTTP-success branch of `send_to_n8n`. -/
def sentOkLog : String := "✅ Datos enviados correctamente a n8n"

/-- Log line of the non-200 branch of `send_to_n8n`: carries the status
code and the verbatim response body. -/
def httpErrorLog (status : Nat) (body : String) : String :=
  "❌ Error HTTP " ++ toString status ++ ": " ++ body

/-- Log line of the `requests.exceptions.Timeout` branch of `send_to_n8n`. -/
def timeoutLog : String := "❌ Timeout al enviar a n8n"

/-- Log line of the generic-exception branch of `send_to_n8n`: carries the
fault description. -/
def transportFaultLog (desc : String) : String :=
  "❌ Error enviando a n8n: " ++ desc

/-- Result of one `send_to_n8n` call: the boolean outcome, the log lines
it printed, and the payload it constructed and posted. -/
structure SendResult where
  ok : Bool
  logs : List String
  payload : Payload
deriving DecidableEq

/-- `send_to_n8n`: build the envelope, POST it once, classify the outcome;
status 200 yields `true`, any other status yields `false` with status and
body logged, a timeout yields `false` with its own log line, any other
transport fault yields `false` with the description logged. Never raises
past its own boundary. -/
def send_to_n8n (products : List ProductRecord) (now : String) (net : HttpOutcome) : SendResult :=
  let payload := mkPayload products now
  let sending := "📤 Enviando " ++ toString products.length ++ " productos a n8n..."
  match net with
  | HttpOutcome.response status body =>
    if status = 200 then
      { ok := true, logs := [sending, sentOkLog], payload := payload }
    else
      { ok := false, logs := [sending, httpErrorLog status body], payload := payload }
  | HttpOutcome.timeout =>
    { ok := false, logs := [sending, timeoutLog], payload := payload }
  | HttpOutcome.transportFault desc =>
    { ok := false, logs := [sending, transportFaultLog desc], payload := payload }

/-- The banner line `"=" * 50` printed by `main`. -/
def bannerLine : String := String.mk (List.replicate 50 '=')

/-- Warning line of the zero-products branch of `main`. -/
def emptyWarnLog : String := "⚠️ No se encontraron productos"

/-- Outcome of one process run: the `sys.exit` code, whether `send_to_n8n`
was invoked (whether the single HTTP POST was made), and the log lines of
`main`. -/
structure RunResult where
  exitCode : Nat
  deliveryInvoked : Bool
  logs : List String
deriving DecidableEq

/-- The `main` function of the scraper (named `mainRun` because Lean
reserves `main` for executables): scrape, exit 1 on a fatal error or on
zero extracted products (delivery never invoked in either case), otherwise
deliver once and exit 0 exactly when delivery returned success. -/
def mainRun (w : World) (now : String) (net : HttpOutcome) : RunResult :=
  let header := [bannerLine, "🎯 SCRAPER FALABELLA → N8N", bannerLine]
  match (scrape_falabella w).1 with
  | Except.error e =>
    { exitCode := 1, deliveryInvoked := false,
      logs := header ++ ["💥 Error fatal: " ++ e] }
  | Except.ok products =>
    if products.isEmpty then
      { exitCode := 1, deliveryInvoked := false,
        logs := header ++ [emptyWarnLog] }
    else
      let r := send_to_n8n products now net
      if r.ok then
        { exitCode := 0, deliveryInvoked := true,
          logs := header ++ r.logs ++
            [bannerLine, "✅ PROCESO COMPLETADO EXITOSAMENTE", bannerLine] }
      else
        { exitCode := 1, deliveryInvoked := true,
          logs := header ++ r.logs ++ ["❌ Error al enviar datos"] }

/-- Modelled from the spec's words for claim C4 (refinement comparison
only): per-field probing that walks the sub-selector list in priority
order and takes the first SELECTOR with a match, rather than the first
ELEMENT in document order matching any selector. The source does not
implement this; it is stated here to compare against `querySelector`. -/
def querySelectorPrioritized (selList : List String) (elems : List Element) : Option Element :=
  match selList.find? (fun s => elems.any (fun e => e.sel.contains s)) with
  | some s => elems.find? (fun e => e.sel.contains s)
  | none => none

/-! Helper lemmas. -/

/-- Every record the forEach loop pushes carries an id strictly above the
starting index. -/
theorem extractLoop_id_gt (cards : List Card) (idx : Nat) :
    ∀ r ∈ extractLoop cards idx, idx < r.id := by
  induction cards generalizing idx with
  | nil => intro r hr; simp [extractLoop] at hr
  | cons c rest ih =>
    intro r hr
    by_cases hc : c.throws = true
    · simp only [extractLoop, hc, if_pos] at hr
      exact Nat.lt_of_succ_lt (ih (idx + 1) r hr)
    · simp only [extractLoop, hc, if_neg, Bool.false_eq_true, not_false_iff,
        List.mem_cons] at hr
      rcases hr with hr | hr
      · subst hr
        have hid : (extractCard c idx).id = idx + 1 := rfl
        rw [hid]
        exact Nat.lt_succ_self idx
      · exact Nat.lt_of_succ_lt (ih (idx + 1) r hr)

/-- The ids the forEach loop produces are strictly increasing. -/
theorem extractLoop_ids_pairwise (cards : List Card) (idx : Nat) :
    ((extractLoop cards idx).map (fun r => r.id)).Pairwise (· < ·) := by
  induction cards generalizing idx with
  | nil => simp [extractLoop]
  | cons c rest ih =>
    by_cases hc : c.throws = true
    · simpa only [extractLoop, hc, if_pos] using ih (idx + 1)
    · simp only [extractLoop, hc, if_neg, Bool.false_eq_true, not_false_iff,
        List.map_cons]
      refine List.Pairwise.cons ?_ (ih (idx + 1))
      intro b hb
      simp only [List.mem_map] at hb
      obtain ⟨r, hr, hrb⟩ := hb
      have hgt := extractLoop_id_gt rest (idx + 1) r hr
      have hid : (extractCard c idx).id = idx + 1 := rfl
      rw [hid, ← hrb]
      exact hgt

/-- When no card throws, the forEach loop keeps every card and the ids are
the contiguous range starting one above the starting index. -/
theorem extractLoop_noThrow_ids (cards : List Card) (idx : Nat)
    (h : ∀ c ∈ cards, c.throws = false) :
    (extractLoop cards idx).map (fun r => r.id) =
      List.range' (idx + 1) cards.length := by
  induction cards generalizing idx with
  | nil => simp [extractLoop]
  | cons c rest ih =>
    have hc : c.throws = false := h c (List.mem_cons_self c rest)
    simp only [extractLoop, hc, if_neg, Bool.false_eq_true, not_false_iff,
      List.map_cons, List.length_cons]
    rw [List.range'_succ (idx + 1) rest.length 1]
    have hid : (extractCard c idx).id = idx + 1 := rfl
    rw [hid, ih (idx + 1) (fun c hm => h c (List.mem_cons_of_mem _ hm))]

/-- `querySelector` returns the first element in document order matching
any selector of the list: elements before it match nothing. -/
theorem querySelector_first_match (sels : List String) (xs ys : List Element)
    (e : Element) (hxs : ∀ x ∈ xs, matchesAny sels x = false)
    (he : matchesAny sels e = true) :
    querySelector sels (xs ++ e :: ys) = some e := by
  induction xs with
  | nil =>
    simp only [List.nil_append, querySelector]
    exact List.find?_cons_of_pos ys he
  | cons x xs ih =>
    have hx : matchesAny sels x = false := hxs x (List.mem_cons_self x xs)
    simp only [querySelector, List.cons_append]
    rw [List.find?_cons_of_neg _ (by simp [hx])]
    exact ih (fun x hm => hxs x (List.mem_cons_of_mem _ hm))

/-- The timeout log line never coincides with a transport-fault log line,
whatever the fault description: they differ at their third character. -/
theorem timeoutLog_ne_transportFaultLog (desc : String) :
    timeoutLog ≠ transportFaultLog desc := by
  intro h
  have h2 : timeoutLog.data = "❌ Error enviando a n8n: ".data ++ desc.data :=
    congrArg String.data h
  have h3 := congrArg (fun l => l[2]?) h2
  simp only at h3
  rw [List.getElem?_append_left (by decide)] at h3
  exact absurd h3 (by decide)

/-! Concrete fixtures used by counterexamples and witnesses. -/

/-- A container that extracts cleanly (matches the first candidate
selector, no children, no error). -/
def cardOk : Card := { sel := [".product-item"], children := [], throws := false }

/-- A container whose per-card extraction raises inside the `try` block. -/
def cardThrowing : Card := { sel := [".product-item"], children := [], throws := true }

/-- A run whose page has three matched containers, the middle one
erroring during per-card extraction. -/
def worldGap : World :=
  { launchOk := true, gotoOk := true, evalOk := true,
    page := [cardOk, cardThrowing, cardOk] }

/-- A run whose page has one matched container that errors during
per-card extraction, so extraction succeeds with zero records. -/
def worldNoProducts : World :=
  { launchOk := true, gotoOk := true, evalOk := true, page := [cardThrowing] }

/-- The fourth container candidate, absent from the wait list. -/
def testidSelector : String := "[data-testid=\"product-card\"]"

/-- A page whose containers match only the fourth extraction candidate. -/
def pageOnlyTestid : List Card := [{ sel := [testidSelector], children := [] }]

/-- A run against `pageOnlyTestid` with every other step succeeding. -/
def worldOnlyTestid : World :=
  { launchOk := true, gotoOk := true, evalOk := true, page := pageOnlyTestid }

/-- First child in document order: matches only `.title`, the FOURTH name
sub-selector. -/
def elTitleFirst : Element := { sel := [".title"], textContent := "Other" }

/-- Second child in document order: matches `.product-name`, the FIRST
name sub-selector. -/
def elNameSecond : Element := { sel := [".product-name"], textContent := "Real Name" }

/-- A container in which two name sub-selectors match distinct elements,
the earlier-listed sub-selector matching the later element. -/
def cardTwoNameMatches : Card :=
  { sel := [".product-item"], children := [elTitleFirst, elNameSecond] }

/-- A container with no children at all: no sub-selector matches any
field. -/
def bareCard : Card := { sel := [".product-item"], children := [] }

/-- A name element whose text content is whitespace-only. -/
def elBlankName : Element := { sel := [".product-name"], textContent := "   " }

/-- An image element with an empty `src` and a lazy-load `data-src`. -/
def elLazyImage : Element :=
  { sel := ["img"], textContent := "", src := "",
    dataSrc := some "https://lazy.example/shoe.png" }

/-- A container holding the blank name element and the lazy image. -/
def cardBlankFields : Card :=
  { sel := [".product-item"], children := [elBlankName, elLazyImage] }

/-- A leading child that matches no field sub-selector. -/
def elDecoy : Element := { sel := [".decoy"], textContent := "x" }

/-- A child matching only the name sub-selector list. -/
def elNameOnly : Element := { sel := [".product-name"], textContent := "Zapatilla" }

/-- A child matching only the price sub-selector list. -/
def elPriceOnly : Element := { sel := [".price"], textContent := "S/ 99" }

/-- A child matching only the original-price sub-selector list. -/
def elOrigOnly : Element := { sel := [".original-price"], textContent := "S/ 199" }

/-- A child matching only the discount sub-selector list. -/
def elDiscOnly : Element := { sel := [".discount"], textContent := "-50%" }

/-- A child matching only the image sub-selector. -/
def elImgOnly : Element :=
  { sel := ["img"], textContent := "", src := "https://img.example/shoe.png" }

/-- A child matching only the link sub-selector. -/
def elLinkOnly : Element :=
  { sel := ["a"], textContent := "", href := "https://link.example/product" }

/-- A child matching only the rating sub-selector list. -/
def elRatingOnly : Element := { sel := [".rating"], textContent := "4.5" }

/-- A container with one matching child per field, each preceded by
children that match none of that field's sub-selectors. -/
def cardAllFields : Card :=
  { sel := [".product-item"],
    children := [elDecoy, elNameOnly, elPriceOnly, elOrigOnly, elDiscOnly,
                 elImgOnly, elLinkOnly, elRatingOnly] }

/-! Claim theorems. -/

/-- C1: the process exit code is 0 exactly when extraction returned at
least one record and delivery returned success; every other case (zero
records, delivery failure, fatal pipeline error) exits with code 1. -/
theorem exit_code_iff_success (w : World) (now : String) (net : HttpOutcome) :
    (mainRun w now net).exitCode = 0 ↔
      ∃ ps, (scrape_falabella w).1 = Except.ok ps ∧ ps ≠ [] ∧
        (send_to_n8n ps now net).ok = true := by
  unfold mainRun
  cases hs : (scrape_falabella w).1 with
  | error e => simp
  | ok ps =>
    by_cases hps : ps.isEmpty
    · have : ps = [] := List.isEmpty_iff.mp hps
      subst this
      simp
    · have hne : ps ≠ [] := fun h => hps (by simp [h])
      by_cases hok : (send_to_n8n ps now net).ok
      · simp [hps, hok, hne]
      · simp [hps, hok, hne]

/-- C2 counterexample: a successful run over three matched containers
whose middle card errors inside the per-card loop returns two records with
ids 1 and 3 — the forEach index advances past the skipped card, so the ids
are not the contiguous sequence 1..2. -/
theorem ids_gap_counterexample :
    (scrape_falabella worldGap).1 =
        Except.ok (extractProducts [cardOk, cardThrowing, cardOk]) ∧
    (extractProducts [cardOk, cardThrowing, cardOk]).length = 2 ∧
    (extractProducts [cardOk, cardThrowing, cardOk]).map (fun r => r.id) = [1, 3] ∧
    (extractProducts [cardOk, cardThrowing, cardOk]).map (fun r => r.id) ≠ [1, 2] :=
  ⟨rfl, rfl, by decide, by decide⟩

/-- C2 (amended): the ids of one extraction result are always strictly
increasing, and in every run where no per-card extraction error occurs
they are exactly the contiguous sequence 1..N; a card that errors is
skipped while the forEach index advances, so such runs may leave gaps. -/
theorem ids_strictly_increasing_and_dense_without_errors (cards : List Card) :
    ((extractProducts cards).map (fun r => r.id)).Pairwise (· < ·) ∧
    ((∀ c ∈ cards, c.throws = false) →
      (extractProducts cards).map (fun r => r.id) = List.range' 1 cards.length) :=
  ⟨extractLoop_ids_pairwise cards 0, fun h => extractLoop_noThrow_ids cards 0 h⟩

/-- Witness for the amended C2 theorem at a concrete error-free run. -/
theorem ids_dense_witness :
    ((extractProducts [cardOk, cardOk]).map (fun r => r.id)).Pairwise (· < ·) ∧
    (extractProducts [cardOk, cardOk]).map (fun r => r.id) = List.range' 1 2 :=
  ⟨(ids_strictly_increasing_and_dense_without_errors [cardOk, cardOk]).1,
   (ids_strictly_increasing_and_dense_without_errors [cardOk, cardOk]).2 (by decide)⟩

/-- C3: the envelope posted by the delivery function always carries
`total_products` equal to the length of its `products` field, and its
`products` field is the input sequence unchanged and in order, whatever
the network does. -/
theorem envelope_total_matches_products (ps : List ProductRecord) (now : String)
    (net : HttpOutcome) :
    (send_to_n8n ps now net).payload.total_products =
        (send_to_n8n ps now net).payload.products.length ∧
    (send_to_n8n ps now net).payload.products = ps := by
  cases net with
  | response status body =>
    by_cases h : status = 200 <;> simp [send_to_n8n, mkPayload, h]
  | timeout => simp [send_to_n8n, mkPayload]
  | transportFault desc => simp [send_to_n8n, mkPayload]

/-- C4 counterexample: in `cardTwoNameMatches` the first-listed name
sub-selector `.product-name` matches the second child while only the
fourth-listed `.title` matches the first child; the code's comma-joined
query takes the first child in document order ("Other"), whereas the
claimed prioritized-list probing would take the `.product-name` element
("Real Name"). -/
theorem field_probe_document_order_counterexample :
    (extractCard cardTwoNameMatches 0).name = "Other" ∧
    (querySelectorPrioritized nameSelectors cardTwoNameMatches.children).map
        (fun e => e.textContent) = some "Real Name" ∧
    (extractCard cardTwoNameMatches 0).name ≠ "Real Name" :=
  ⟨by decide, by decide, by decide⟩

/-- C4 (amended): for every one of the seven fields, the probe is a
single query with that field's comma-joined sub-selector list, which
yields the first element in DOCUMENT order that matches any sub-selector
of the list — the position of the matching sub-selector within the list
has no priority effect. For each field: when the container's children
split as `xs ++ e :: ys` with no element of `xs` matching any of the
field's sub-selectors and `e` matching one, the field is computed from
`e` through the field's fallback chain. -/
theorem field_probe_takes_first_document_order_match (c : Card) (idx : Nat) :
    (∀ xs ys e, c.children = xs ++ e :: ys →
        (∀ x ∈ xs, matchesAny nameSelectors x = false) →
        matchesAny nameSelectors e = true →
        (extractCard c idx).name = jsOrDefault (some (jsTrim e.textContent)) "N/A") ∧
    (∀ xs ys e, c.children = xs ++ e :: ys →
        (∀ x ∈ xs, matchesAny priceSelectors x = false) →
        matchesAny priceSelectors e = true →
        (extractCard c idx).price = jsOrDefault (some (jsTrim e.textContent)) "N/A") ∧
    (∀ xs ys e, c.children = xs ++ e :: ys →
        (∀ x ∈ xs, matchesAny originalPriceSelectors x = false) →
        matchesAny originalPriceSelectors e = true →
        (extractCard c idx).originalPrice = jsOrNull (some (jsTrim e.textContent))) ∧
    (∀ xs ys e, c.children = xs ++ e :: ys →
        (∀ x ∈ xs, matchesAny discountSelectors x = false) →
        matchesAny discountSelectors e = true →
        (extractCard c idx).discount = jsOrNull (some (jsTrim e.textContent))) ∧
    (∀ xs ys e, c.children = xs ++ e :: ys →
        (∀ x ∈ xs, matchesAny imageSelectors x = false) →
        matchesAny imageSelectors e = true →
        (extractCard c idx).image = jsOrNull (jsOr (some e.src) e.dataSrc)) ∧
    (∀ xs ys e, c.children = xs ++ e :: ys →
        (∀ x ∈ xs, matchesAny linkSelectors x = false) →
        matchesAny linkSelectors e = true →
        (extractCard c idx).link = jsOrNull (some e.href)) ∧
    (∀ xs ys e, c.children = xs ++ e :: ys →
        (∀ x ∈ xs, matchesAny ratingSelectors x = false) →
        matchesAny ratingSelectors e = true →
        (extractCard c idx).rating = jsOrNull (some (jsTrim e.textContent))) := by
  refine ⟨?_, ?_, ?_, ?_, ?_, ?_, ?_⟩ <;>
    intro xs ys e hc hxs he <;>
    have h := querySelector_first_match _ xs ys e hxs he <;>
    simp [extractCard, hc, h]

/-- Witness for the amended C4 theorem: one container exercising all
seven field conjuncts, each matching element preceded only by children
that match none of that field's sub-selectors. -/
theorem field_probe_witness :
    (extractCard cardAllFields 0).name =
        jsOrDefault (some (jsTrim elNameOnly.textContent)) "N/A" ∧
    (extractCard cardAllFields 0).price =
        jsOrDefault (some (jsTrim elPriceOnly.textContent)) "N/A" ∧
    (extractCard cardAllFields 0).originalPrice =
        jsOrNull (some (jsTrim elOrigOnly.textContent)) ∧
    (extractCard cardAllFields 0).discount =
        jsOrNull (some (jsTrim elDiscOnly.textContent)) ∧
    (extractCard cardAllFields 0).image =
        jsOrNull (jsOr (some elImgOnly.src) elImgOnly.dataSrc) ∧
    (extractCard cardAllFields 0).link = jsOrNull (some elLinkOnly.href) ∧
    (extractCard cardAllFields 0).rating =
        jsOrNull (some (jsTrim elRatingOnly.textContent)) :=
  ⟨(field_probe_takes_first_document_order_match cardAllFields 0).1
      [elDecoy]
      [elPriceOnly, elOrigOnly, elDiscOnly, elImgOnly, elLinkOnly, elRatingOnly]
      elNameOnly rfl (by decide) (by decide),
   (field_probe_takes_first_document_order_match cardAllFields 0).2.1
      [elDecoy, elNameOnly]
      [elOrigOnly, elDiscOnly, elImgOnly, elLinkOnly, elRatingOnly]
      elPriceOnly rfl (by decide) (by decide),
   (field_probe_takes_first_document_order_match cardAllFields 0).2.2.1
      [elDecoy, elNameOnly, elPriceOnly]
      [elDiscOnly, elImgOnly, elLinkOnly, elRatingOnly]
      elOrigOnly rfl (by decide) (by decide),
   (field_probe_takes_first_document_order_match cardAllFields 0).2.2.2.1
      [elDecoy, elNameOnly, elPriceOnly, elOrigOnly]
      [elImgOnly, elLinkOnly, elRatingOnly]
      elDiscOnly rfl (by decide) (by decide),
   (field_probe_takes_first_document_order_match cardAllFields 0).2.2.2.2.1
      [elDecoy, elNameOnly, elPriceOnly, elOrigOnly, elDiscOnly]
      [elLinkOnly, elRatingOnly]
      elImgOnly rfl (by decide) (by decide),
   (field_probe_takes_first_document_order_match cardAllFields 0).2.2.2.2.2.1
      [elDecoy, elNameOnly, elPriceOnly, elOrigOnly, elDiscOnly, elImgOnly]
      [elRatingOnly]
      elLinkOnly rfl (by decide) (by decide),
   (field_probe_takes_first_document_order_match cardAllFields 0).2.2.2.2.2.2
      [elDecoy, elNameOnly, elPriceOnly, elOrigOnly, elDiscOnly, elImgOnly, elLinkOnly]
      []
      elRatingOnly rfl (by decide) (by decide)⟩

/-- C5: when a field's sub-selector list has no match inside the
container, `name` and `price` fall back to the sentinel string `"N/A"`
(never null), while `originalPrice`, `discount`, `image`, `link` and
`rating` fall back to null (never the sentinel). -/
theorem missing_field_fallbacks (c : Card) (idx : Nat) :
    (querySelector nameSelectors c.children = none →
        (extractCard c idx).name = "N/A") ∧
    (querySelector priceSelectors c.children = none →
        (extractCard c idx).price = "N/A") ∧
    (querySelector imageSelectors c.children = none →
        (extractCard c idx).image = none) ∧
    (querySelector originalPriceSelectors c.children = none →
        (extractCard c idx).originalPrice = none) ∧
    (querySelector discountSelectors c.children = none →
        (extractCard c idx).discount = none) ∧
    (querySelector linkSelectors c.children = none →
        (extractCard c idx).link = none) ∧
    (querySelector ratingSelectors c.children = none →
        (extractCard c idx).rating = none) := by
  refine ⟨?_, ?_, ?_, ?_, ?_, ?_, ?_⟩ <;> intro h <;>
    simp [extractCard, h, jsOrDefault, jsOrNull, jsOr, jsTruthy]

/-- Witness for C5 at a container with no children: every probe misses. -/
theorem missing_field_fallbacks_witness :
    (extractCard bareCard 0).name = "N/A" ∧
    (extractCard bareCard 0).price = "N/A" ∧
    (extractCard bareCard 0).image = none ∧
    (extractCard bareCard 0).originalPrice = none ∧
    (extractCard bareCard 0).discount = none ∧
    (extractCard bareCard 0).link = none ∧
    (extractCard bareCard 0).rating = none :=
  ⟨(missing_field_fallbacks bareCard 0).1 rfl,
   (missing_field_fallbacks bareCard 0).2.1 rfl,
   (missing_field_fallbacks bareCard 0).2.2.1 rfl,
   (missing_field_fallbacks bareCard 0).2.2.2.1 rfl,
   (missing_field_fallbacks bareCard 0).2.2.2.2.1 rfl,
   (missing_field_fallbacks bareCard 0).2.2.2.2.2.1 rfl,
   (missing_field_fallbacks bareCard 0).2.2.2.2.2.2 rfl⟩

/-- C6: delivery outcome classification — HTTP 200 yields `true` whatever
the body; any other status yields `false` with the status code and body on
the logged line; a timeout yields `false` with a log line that differs
from every transport-fault log line; any other transport fault yields
`false` with the fault description on the logged line. -/
theorem delivery_outcome_classification (ps : List ProductRecord) (now : String) :
    (∀ body, (send_to_n8n ps now (HttpOutcome.response 200 body)).ok = true) ∧
    (∀ status body, status ≠ 200 →
        (send_to_n8n ps now (HttpOutcome.response status body)).ok = false ∧
        httpErrorLog status body ∈
          (send_to_n8n ps now (HttpOutcome.response status body)).logs) ∧
    ((send_to_n8n ps now HttpOutcome.timeout).ok = false ∧
        timeoutLog ∈ (send_to_n8n ps now HttpOutcome.timeout).logs ∧
        ∀ desc, timeoutLog ≠ transportFaultLog desc) ∧
    (∀ desc, (send_to_n8n ps now (HttpOutcome.transportFault desc)).ok = false ∧
        transportFaultLog desc ∈
          (send_to_n8n ps now (HttpOutcome.transportFault desc)).logs) := by
  refine ⟨?_, ?_, ⟨?_, ?_, timeoutLog_ne_transportFaultLog⟩, ?_⟩
  · intro body
    simp [send_to_n8n]
  · intro status body hs
    simp [send_to_n8n, hs]
  · simp [send_to_n8n]
  · simp [send_to_n8n]
  · intro desc
    simp [send_to_n8n]

/-- Witness for C6: the four outcome shapes at concrete inputs, with the
non-200 hypothesis discharged at status 500 and body "server error". -/
theorem delivery_outcome_witness :
    (send_to_n8n [] "t" (HttpOutcome.response 200 "ignored")).ok = true ∧
    ((send_to_n8n [] "t" (HttpOutcome.response 500 "server error")).ok = false ∧
      httpErrorLog 500 "server error" ∈
        (send_to_n8n [] "t" (HttpOutcome.response 500 "server error")).logs) ∧
    (send_to_n8n [] "t" HttpOutcome.timeout).ok = false ∧
    (send_to_n8n [] "t" (HttpOutcome.transportFault "connection refused")).ok = false :=
  ⟨(delivery_outcome_classification [] "t").1 "ignored",
   (delivery_outcome_classification [] "t").2.1 500 "server error" (by decide),
   (delivery_outcome_classification [] "t").2.2.1.1,
   ((delivery_outcome_classification [] "t").2.2.2 "connection refused").1⟩

/-- C7: when extraction succeeds with an empty sequence, the delivery
function is never invoked, the process exits with code 1, and the warning
line is logged. -/
theorem empty_extraction_skips_delivery (w : World) (now : String)
    (net : HttpOutcome) (h : (scrape_falabella w).1 = Except.ok []) :
    (mainRun w now net).deliveryInvoked = false ∧
    (mainRun w now net).exitCode = 1 ∧
    emptyWarnLog ∈ (mainRun w now net).logs := by
  simp [mainRun, h]

/-- Witness for C7 at a run whose one matched container errors during
extraction, so extraction succeeds with zero records. -/
theorem empty_extraction_skips_delivery_witness :
    (mainRun worldNoProducts "t" HttpOutcome.timeout).deliveryInvoked = false ∧
    (mainRun worldNoProducts "t" HttpOutcome.timeout).exitCode = 1 ∧
    emptyWarnLog ∈ (mainRun worldNoProducts "t" HttpOutcome.timeout).logs :=
  empty_extraction_skips_delivery worldNoProducts "t" HttpOutcome.timeout rfl

/-- C8: after every run of the extraction component — normal return,
launch failure, navigation timeout, selector-wait timeout or evaluation
failure — no browser process is live: the explicit `browser.close()` of
the success path and the unconditional `with sync_playwright()` exit
together release the browser on every path before the function returns or
propagates. -/
theorem browser_released_on_every_path (w : World) :
    browserLive (scrape_falabella w).2 = false := by
  cases h : scrapeWithPlaywright w with
  | mk r t =>
    simp [scrape_falabella, h, browserLive, List.foldl_append]

/-- C9: the wait list is a strict subset of the container candidates —
every wait selector is a container candidate while the fourth candidate is
not waited on — and on a page whose containers match only that fourth
candidate the run fails at the selector wait even though the extraction
pass on the same page would yield one record. -/
theorem wait_selectors_strict_subset_scenario :
    waitSelectors.all (fun s => containerSelectors.contains s) = true ∧
    containerSelectors.contains testidSelector = true ∧
    waitSelectors.contains testidSelector = false ∧
    (scrape_falabella worldOnlyTestid).1 = Except.error "selector wait timeout" ∧
    (extractProducts (selectContainers pageOnlyTestid)).length = 1 :=
  ⟨by decide, by decide, by decide, rfl, rfl⟩

/-- C10: a matched field element with empty-after-trim text still triggers
the fallback — a blank name or price yields the sentinel `"N/A"`, and an
image element with an empty `src` falls back to the lazy-load `data-src`
attribute (itself subject to the null fallback). -/
theorem empty_text_triggers_fallback (c : Card) (idx : Nat) :
    (∀ e, querySelector nameSelectors c.children = some e →
        jsTrim e.textContent = "" → (extractCard c idx).name = "N/A") ∧
    (∀ e, querySelector priceSelectors c.children = some e →
        jsTrim e.textContent = "" → (extractCard c idx).price = "N/A") ∧
    (∀ e, querySelector imageSelectors c.children = some e →
        e.src = "" → (extractCard c idx).image = jsOrNull e.dataSrc) := by
  refine ⟨?_, ?_, ?_⟩ <;> intro e h ht <;>
    simp [extractCard, h, ht, jsOrDefault, jsOrNull, jsOr, jsTruthy]

/-- Witness for C10 at a container holding a whitespace-only name element
and an image element with empty `src` and a lazy-load `data-src`. -/
theorem empty_text_triggers_fallback_witness :
    (extractCard cardBlankFields 0).name = "N/A" ∧
    (extractCard cardBlankFields 0).image = jsOrNull elLazyImage.dataSrc :=
  ⟨(empty_text_triggers_fallback cardBlankFields 0).1 elBlankName
      (by decide) (by decide),
   (empty_text_triggers_fallback cardBlankFields 0).2.2 elLazyImage
      (by decide) (by decide)⟩
